import Mathlib

/-!
Shallow embedding of the linvoc dictation orchestration subsystem
(src/src/core and src/src/backends), together with proofs of the
spec-level properties about it.  Python methods become Lean functions;
mutable object state becomes explicit record passing; external systems
(subprocesses, the filesystem, dbus, OS signals) become oracle
parameters; observable side effects become explicit effect lists.
-/

/-- DictationState from src/src/core/engine_base.py (and the identical
enum in src/src/core/dictation.py). -/
inductive DictationState
  | idle
  | recording
  | processing
  | error
  deriving DecidableEq, Repr

/-- The state property setter of SpeechEngine (engine_base.py lines 55-61)
and of DictationManager (dictation.py lines 69-75); the two setters are
textually identical.  Returns the new stored state together with the list
of values passed to the on_state_change callback (empty or singleton):
the callback fires only when the assigned value differs from the stored
one. -/
def setStateNotify (cur new : DictationState) : DictationState × List DictationState :=
  if cur ≠ new then (new, [new]) else (cur, [])

/-- Runs a sequence of assignments through the state setter, collecting
every callback invocation in order. -/
def runAssignments (cur : DictationState) : List DictationState → DictationState × List DictationState
  | [] => (cur, [])
  | a :: rest =>
    let first := setStateNotify cur a
    let later := runAssignments first.1 rest
    (later.1, first.2 ++ later.2)

/-- Specification-side description of the expected callback trace: one
notification per assignment that changes the running value, none for an
assignment equal to it. -/
def changedAssignments (cur : DictationState) : List DictationState → List DictationState
  | [] => []
  | a :: rest => if a = cur then changedAssignments cur rest else a :: changedAssignments a rest

/-- Python str.strip default whitespace set. -/
def isPyWs (c : Char) : Bool :=
  c = ' ' || c = '\t' || c = '\n' || c = '\r' || c = '\x0b' || c = '\x0c'

/-- Python str.strip on a character list. -/
def pyStripList (l : List Char) : List Char :=
  ((l.dropWhile isPyWs).reverse.dropWhile isPyWs).reverse

/-- Python str.strip. -/
def pyStrip (s : String) : String :=
  (pyStripList s.data).asString

/-- ASCII lowercase of one character (models str.lower on the ASCII
values that occur in the embedded code). -/
def lowerChar (c : Char) : Char :=
  if 'A' ≤ c && c ≤ 'Z' then Char.ofNat (c.toNat + 32) else c

/-- Python str.lower restricted to ASCII. -/
def pyLower (s : String) : String :=
  (s.data.map lowerChar).asString

/-- Left-to-right, non-overlapping removal of every occurrence of a
nonempty pattern, as Python str.replace with an empty replacement does.
The fuel argument (initially the length of the text) makes the recursion
structural; each step consumes at least one character. -/
def replaceAllAux (pat : List Char) : Nat → List Char → List Char
  | 0, t => t
  | _ + 1, [] => []
  | fuel + 1, c :: cs =>
    if pat.isPrefixOf (c :: cs) then replaceAllAux pat fuel ((c :: cs).drop pat.length)
    else c :: replaceAllAux pat fuel cs

/-- Python text.replace(pat, "") for the nonempty patterns used by the
non-speech marker sweep. -/
def pyRemoveAll (pat : String) (s : String) : String :=
  if pat.data = [] then s else (replaceAllAux pat.data s.data.length s.data).asString

/-- Scans for the first closing delimiter, failing on a newline or the
end of input (re `.` does not match a newline); on success returns the
remainder after the delimiter. -/
def dropThroughClose (cl : Char) : List Char → Option (List Char)
  | [] => none
  | c :: cs => if c = '\n' then none else if c = cl then some cs else dropThroughClose cl cs

/-- One pass of re.sub removing every shortest op...cl span, matching the
non-greedy patterns used in _filter_non_speech.  Fuel-structural as
above. -/
def removeDelimAux (op cl : Char) : Nat → List Char → List Char
  | 0, t => t
  | _ + 1, [] => []
  | fuel + 1, c :: cs =>
    if c = op then
      match dropThroughClose cl cs with
      | some rest => removeDelimAux op cl fuel rest
      | none => c :: removeDelimAux op cl fuel cs
    else c :: removeDelimAux op cl fuel cs

/-- re.sub of a non-greedy bracketed span pattern with the empty string. -/
def removeBracketed (op cl : Char) (s : String) : String :=
  (removeDelimAux op cl s.data.length s.data).asString

/-- WhisperEngine.NON_SPEECH_MARKERS from src/src/core/whisper_engine.py
lines 35-45, in source order. -/
def NON_SPEECH_MARKERS : List String :=
  ["[Musique]", "[Music]", "[MUSIC]",
   "[Applaudissements]", "[Applause]", "[APPLAUSE]",
   "[Rires]", "[Laughter]", "[LAUGHTER]",
   "[Bruit]", "[Noise]", "[NOISE]",
   "[Silence]", "[SILENCE]",
   "[Inaudible]", "[INAUDIBLE]",
   "(Musique)", "(Music)",
   "*Musique*", "*Music*",
   "..."]

/-- WhisperEngine._filter_non_speech (whisper_engine.py lines 263-285):
literal removal of each known marker in list order, then a generic
bracket sweep, then a parenthesis sweep, then strip. -/
def filterNonSpeech (text : String) : String :=
  if text = "" then ""
  else
    let t1 := NON_SPEECH_MARKERS.foldl (fun acc m => pyRemoveAll m acc) text
    let t2 := removeBracketed '[' ']' t1
    let t3 := removeBracketed '(' ')' t2
    pyStrip t3

/-- Observable side effects of an engine lifecycle call: state callback
invocations, process and text delivery operations. -/
inductive EngineEffect
  | stateNotified (s : DictationState)
  | spawnedProcess
  | terminatedProcess
  | injected (text : String)
  | onText (text : String)
  deriving DecidableEq, Repr

/-- VoskEngine mutable state (vosk_engine.py): the dictation state and
whether the nerd-dictation subprocess handle is held.  Model-path fields
do not influence the embedded control flow and are elided. -/
structure VoskEngine where
  state : DictationState
  processHandle : Bool
  deriving DecidableEq, Repr

/-- VoskEngine.start (vosk_engine.py lines 100-142).  The oracle
execFound tells whether the nerd-dictation executable resolves; spawnOk
tells whether subprocess.Popen succeeds. -/
def VoskEngine.start (execFound spawnOk : Bool) (e : VoskEngine) :
    Bool × VoskEngine × List EngineEffect :=
  if e.state = DictationState.recording then (false, e, [])
  else if ¬ execFound then
    let r := setStateNotify e.state DictationState.error
    (false, { e with state := r.1 }, r.2.map EngineEffect.stateNotified)
  else if spawnOk then
    let r := setStateNotify e.state DictationState.recording
    (true, { e with state := r.1, processHandle := true },
      EngineEffect.spawnedProcess :: r.2.map EngineEffect.stateNotified)
  else
    let r := setStateNotify e.state DictationState.error
    (false, { e with state := r.1 }, r.2.map EngineEffect.stateNotified)

/-- VoskEngine.stop (vosk_engine.py lines 144-169): no-op outside
Recording; otherwise sets Processing, terminates and clears the process
handle, sets Idle, and always returns the empty string. -/
def VoskEngine.stop (e : VoskEngine) : String × VoskEngine × List EngineEffect :=
  if e.state ≠ DictationState.recording then ("", e, [])
  else
    let r1 := setStateNotify e.state DictationState.processing
    let procEff := if e.processHandle then [EngineEffect.terminatedProcess] else []
    let r2 := setStateNotify r1.1 DictationState.idle
    ("", { state := r2.1, processHandle := false },
      r1.2.map EngineEffect.stateNotified ++ procEff ++ r2.2.map EngineEffect.stateNotified)

/-- DictationManager mutable state (dictation.py); the output queue and
reader-thread fields are never touched by start or stop and are elided. -/
structure DictationManager where
  state : DictationState
  processHandle : Bool
  deriving DecidableEq, Repr

/-- DictationManager.start (dictation.py lines 114-152); same control
flow as VoskEngine.start. -/
def DictationManager.start (execFound spawnOk : Bool) (e : DictationManager) :
    Bool × DictationManager × List EngineEffect :=
  if e.state = DictationState.recording then (false, e, [])
  else if ¬ execFound then
    let r := setStateNotify e.state DictationState.error
    (false, { e with state := r.1 }, r.2.map EngineEffect.stateNotified)
  else if spawnOk then
    let r := setStateNotify e.state DictationState.recording
    (true, { e with state := r.1, processHandle := true },
      EngineEffect.spawnedProcess :: r.2.map EngineEffect.stateNotified)
  else
    let r := setStateNotify e.state DictationState.error
    (false, { e with state := r.1 }, r.2.map EngineEffect.stateNotified)

/-- DictationManager.stop (dictation.py lines 154-172). -/
def DictationManager.stop (e : DictationManager) : String × DictationManager × List EngineEffect :=
  if e.state ≠ DictationState.recording then ("", e, [])
  else
    let r1 := setStateNotify e.state DictationState.processing
    let procEff := if e.processHandle then [EngineEffect.terminatedProcess] else []
    let r2 := setStateNotify r1.1 DictationState.idle
    ("", { state := r2.1, processHandle := false },
      r1.2.map EngineEffect.stateNotified ++ procEff ++ r2.2.map EngineEffect.stateNotified)

/-- WhisperEngine mutable state (whisper_engine.py): dictation state,
the _recording flag, whether the model object is loaded, and the
accumulated audio frames (chunks abstracted as naturals). -/
structure WhisperEngine where
  state : DictationState
  recording : Bool
  modelLoaded : Bool
  frames : List Nat
  deriving DecidableEq, Repr

/-- Effects of WhisperEngine._transcribe_and_inject over one transcribed
segment: strip, filter non-speech, and if non-empty inject the text with
a trailing space (when a text injector could be bound) and fire the
on_text callback. -/
def whisperSegmentEffects (injAvail : Bool) (seg : String) : List EngineEffect :=
  let text := filterNonSpeech (pyStrip seg)
  if text = "" then []
  else (if injAvail then [EngineEffect.injected (text ++ " ")] else []) ++
    [EngineEffect.onText text]

/-- WhisperEngine._transcribe_and_inject (whisper_engine.py lines
226-261).  The model output is an oracle: none models a transcription
exception (logged, no text produced), some gives the segment texts. -/
def whisperTranscribeAndInject (frames : List Nat) (modelLoaded injAvail : Bool)
    (segs : Option (List String)) : List EngineEffect :=
  if frames = [] || ¬ modelLoaded then []
  else
    match segs with
    | none => []
    | some l => (l.map (whisperSegmentEffects injAvail)).flatten

/-- WhisperEngine.start (whisper_engine.py lines 123-151).  avail is the
pywhispercpp import probe, loadOk whether a fresh model load succeeds. -/
def WhisperEngine.start (avail loadOk : Bool) (e : WhisperEngine) :
    Bool × WhisperEngine × List EngineEffect :=
  if e.recording then (false, e, [])
  else if ¬ avail then
    let r := setStateNotify e.state DictationState.error
    (false, { e with state := r.1 }, r.2.map EngineEffect.stateNotified)
  else if e.modelLoaded || loadOk then
    let r := setStateNotify e.state DictationState.recording
    (true, { e with state := r.1, recording := true, modelLoaded := true },
      r.2.map EngineEffect.stateNotified)
  else
    let r := setStateNotify e.state DictationState.error
    (false, { e with state := r.1 }, r.2.map EngineEffect.stateNotified)

/-- WhisperEngine.stop (whisper_engine.py lines 153-176): no-op outside a
recording session; otherwise Processing, join, transcription over the
accumulated frames, frame reset, Idle, empty string returned. -/
def WhisperEngine.stop (e : WhisperEngine) (segs : Option (List String)) (injAvail : Bool) :
    String × WhisperEngine × List EngineEffect :=
  if ¬ e.recording then ("", e, [])
  else
    let r1 := setStateNotify e.state DictationState.processing
    let tEff := if e.frames = [] then [] else whisperTranscribeAndInject e.frames e.modelLoaded injAvail segs
    let frames2 := if e.frames = [] then e.frames else []
    let r2 := setStateNotify r1.1 DictationState.idle
    ("", { state := r2.1, recording := false, modelLoaded := e.modelLoaded, frames := frames2 },
      r1.2.map EngineEffect.stateNotified ++ tEff ++ r2.2.map EngineEffect.stateNotified)

/-- Events that can change a WhisperEngine between API calls: lifecycle
calls plus the capture-thread actions (_record_and_transcribe): a setup
failure (PyAudio missing or microphone open error, whisper_engine.py
lines 185-208), the frame-buffer reset at capture begin (line 210), and
one frame append (line 216). -/
inductive WhisperEvent
  | start (avail loadOk : Bool)
  | stop (segs : Option (List String)) (injAvail : Bool)
  | threadFail
  | threadBegin
  | capture (f : Nat)

/-- One step of the WhisperEngine state machine. -/
def whisperStep (e : WhisperEngine) : WhisperEvent → WhisperEngine
  | WhisperEvent.start a l => (WhisperEngine.start a l e).2.1
  | WhisperEvent.stop segs inj => (WhisperEngine.stop e segs inj).2.1
  | WhisperEvent.threadFail =>
    if e.recording then
      { e with state := (setStateNotify e.state DictationState.error).1, recording := false }
    else e
  | WhisperEvent.threadBegin => if e.recording then { e with frames := [] } else e
  | WhisperEvent.capture f => if e.recording then { e with frames := e.frames ++ [f] } else e

/-- Freshly constructed WhisperEngine (whisper_engine.py lines 47-69). -/
def whisperInit : WhisperEngine :=
  { state := DictationState.idle, recording := false, modelLoaded := false, frames := [] }

/-- States a WhisperEngine can actually be in. -/
inductive WhisperReachable : WhisperEngine → Prop
  | init : WhisperReachable whisperInit
  | step {e : WhisperEngine} (h : WhisperReachable e) (ev : WhisperEvent) :
      WhisperReachable (whisperStep e ev)

/-- FasterWhisperEngine mutable state (faster_whisper_engine.py). -/
structure FasterWhisperEngine where
  state : DictationState
  recording : Bool
  modelLoaded : Bool
  frames : List Nat
  deriving DecidableEq, Repr

/-- FasterWhisperEngine._transcribe_frames (faster_whisper_engine.py
lines 155-180): join the segment texts with spaces, strip, and if
non-empty inject with a trailing space and fire on_text. -/
def fwTranscribeFrames (frames : List Nat) (modelLoaded injAvail : Bool)
    (segs : Option (List String)) : List EngineEffect :=
  if frames = [] || ¬ modelLoaded then []
  else
    match segs with
    | none => []
    | some l =>
      let text := pyStrip (String.intercalate " " l)
      if text = "" then []
      else (if injAvail then [EngineEffect.injected (text ++ " ")] else []) ++
        [EngineEffect.onText text]

/-- FasterWhisperEngine.start (faster_whisper_engine.py lines 76-98);
unlike WhisperEngine it resets the frame buffer before recording. -/
def FasterWhisperEngine.start (avail loadOk : Bool) (e : FasterWhisperEngine) :
    Bool × FasterWhisperEngine × List EngineEffect :=
  if e.recording then (false, e, [])
  else if ¬ avail then
    let r := setStateNotify e.state DictationState.error
    (false, { e with state := r.1 }, r.2.map EngineEffect.stateNotified)
  else if e.modelLoaded || loadOk then
    let r := setStateNotify e.state DictationState.recording
    (true, { e with state := r.1, recording := true, modelLoaded := true, frames := [] },
      r.2.map EngineEffect.stateNotified)
  else
    let r := setStateNotify e.state DictationState.error
    (false, { e with state := r.1 }, r.2.map EngineEffect.stateNotified)

/-- FasterWhisperEngine.stop (faster_whisper_engine.py lines 100-115). -/
def FasterWhisperEngine.stop (e : FasterWhisperEngine) (segs : Option (List String))
    (injAvail : Bool) : String × FasterWhisperEngine × List EngineEffect :=
  if ¬ e.recording then ("", e, [])
  else
    let r1 := setStateNotify e.state DictationState.processing
    let tEff := if e.frames = [] then [] else fwTranscribeFrames e.frames e.modelLoaded injAvail segs
    let frames2 := if e.frames = [] then e.frames else []
    let r2 := setStateNotify r1.1 DictationState.idle
    ("", { state := r2.1, recording := false, modelLoaded := e.modelLoaded, frames := frames2 },
      r1.2.map EngineEffect.stateNotified ++ tEff ++ r2.2.map EngineEffect.stateNotified)

/-- Events for the FasterWhisperEngine state machine (_capture_audio has
the same failure and append behaviour as the Whisper thread but performs
no buffer reset since start already cleared it). -/
inductive FwEvent
  | start (avail loadOk : Bool)
  | stop (segs : Option (List String)) (injAvail : Bool)
  | threadFail
  | capture (f : Nat)

/-- One step of the FasterWhisperEngine state machine. -/
def fwStep (e : FasterWhisperEngine) : FwEvent → FasterWhisperEngine
  | FwEvent.start a l => (FasterWhisperEngine.start a l e).2.1
  | FwEvent.stop segs inj => (FasterWhisperEngine.stop e segs inj).2.1
  | FwEvent.threadFail =>
    if e.recording then
      { e with state := (setStateNotify e.state DictationState.error).1, recording := false }
    else e
  | FwEvent.capture f => if e.recording then { e with frames := e.frames ++ [f] } else e

/-- Freshly constructed FasterWhisperEngine. -/
def fwInit : FasterWhisperEngine :=
  { state := DictationState.idle, recording := false, modelLoaded := false, frames := [] }

/-- States a FasterWhisperEngine can actually be in. -/
inductive FwReachable : FasterWhisperEngine → Prop
  | init : FwReachable fwInit
  | step {e : FasterWhisperEngine} (h : FwReachable e) (ev : FwEvent) :
      FwReachable (fwStep e ev)

/-- ParakeetEngine mutable state (parakeet_engine.py). -/
structure ParakeetEngine where
  state : DictationState
  recording : Bool
  modelLoaded : Bool
  frames : List Nat
  deriving DecidableEq, Repr

/-- ParakeetEngine._transcribe_frames with _extract_texts
(parakeet_engine.py lines 249-340): strip each raw segment, keep the
non-empty ones, and deliver only the first. -/
def parakeetTranscribeFrames (frames : List Nat) (modelLoaded injAvail : Bool)
    (segs : Option (List String)) : List EngineEffect :=
  if frames = [] || ¬ modelLoaded then []
  else
    match segs with
    | none => []
    | some raw =>
      let texts := (raw.map pyStrip).filter (fun t => t ≠ "")
      match texts with
      | [] => []
      | t :: _ =>
        (if injAvail then [EngineEffect.injected (t ++ " ")] else []) ++
          [EngineEffect.onText t]

/-- ParakeetEngine.start (parakeet_engine.py lines 165-187). -/
def ParakeetEngine.start (avail loadOk : Bool) (e : ParakeetEngine) :
    Bool × ParakeetEngine × List EngineEffect :=
  if e.recording then (false, e, [])
  else if ¬ avail then
    let r := setStateNotify e.state DictationState.error
    (false, { e with state := r.1 }, r.2.map EngineEffect.stateNotified)
  else if e.modelLoaded || loadOk then
    let r := setStateNotify e.state DictationState.recording
    (true, { e with state := r.1, recording := true, modelLoaded := true, frames := [] },
      r.2.map EngineEffect.stateNotified)
  else
    let r := setStateNotify e.state DictationState.error
    (false, { e with state := r.1 }, r.2.map EngineEffect.stateNotified)

/-- ParakeetEngine.stop (parakeet_engine.py lines 189-204). -/
def ParakeetEngine.stop (e : ParakeetEngine) (segs : Option (List String))
    (injAvail : Bool) : String × ParakeetEngine × List EngineEffect :=
  if ¬ e.recording then ("", e, [])
  else
    let r1 := setStateNotify e.state DictationState.processing
    let tEff := if e.frames = [] then [] else parakeetTranscribeFrames e.frames e.modelLoaded injAvail segs
    let frames2 := if e.frames = [] then e.frames else []
    let r2 := setStateNotify r1.1 DictationState.idle
    ("", { state := r2.1, recording := false, modelLoaded := e.modelLoaded, frames := frames2 },
      r1.2.map EngineEffect.stateNotified ++ tEff ++ r2.2.map EngineEffect.stateNotified)

/-- Events for the ParakeetEngine state machine (_capture_audio,
parakeet_engine.py lines 212-247, mirrors the FasterWhisper thread). -/
inductive ParakeetEvent
  | start (avail loadOk : Bool)
  | stop (segs : Option (List String)) (injAvail : Bool)
  | threadFail
  | capture (f : Nat)

/-- One step of the ParakeetEngine state machine. -/
def parakeetStep (e : ParakeetEngine) : ParakeetEvent → ParakeetEngine
  | ParakeetEvent.start a l => (ParakeetEngine.start a l e).2.1
  | ParakeetEvent.stop segs inj => (ParakeetEngine.stop e segs inj).2.1
  | ParakeetEvent.threadFail =>
    if e.recording then
      { e with state := (setStateNotify e.state DictationState.error).1, recording := false }
    else e
  | ParakeetEvent.capture f => if e.recording then { e with frames := e.frames ++ [f] } else e

/-- Freshly constructed ParakeetEngine. -/
def parakeetInit : ParakeetEngine :=
  { state := DictationState.idle, recording := false, modelLoaded := false, frames := [] }

/-- States a ParakeetEngine can actually be in. -/
inductive ParakeetReachable : ParakeetEngine → Prop
  | init : ParakeetReachable parakeetInit
  | step {e : ParakeetEngine} (h : ParakeetReachable e) (ev : ParakeetEvent) :
      ParakeetReachable (parakeetStep e ev)

/-- Value of one digit character. -/
def digitVal (c : Char) : Nat := c.toNat - 48

/-- Digit tail of a Python integer literal: digits possibly separated by
single underscores; a leading, trailing or doubled underscore fails. -/
def pyDigitsVal (acc : Nat) : List Char → Option Nat
  | [] => some acc
  | '_' :: c :: cs => if c.isDigit then pyDigitsVal (acc * 10 + digitVal c) cs else none
  | c :: cs => if c.isDigit then pyDigitsVal (acc * 10 + digitVal c) cs else none

/-- Nonempty digit part of a Python integer literal. -/
def pyNat? : List Char → Option Nat
  | [] => none
  | c :: cs => if c.isDigit then pyDigitsVal (digitVal c) cs else none

/-- Python int(s) on a decimal string: optional surrounding whitespace,
optional sign, digits with optional single underscores; none models the
ValueError raised on anything else. -/
def pyInt? (s : String) : Option Int :=
  match pyStripList s.data with
  | '+' :: rest => (pyNat? rest).map (fun n => (n : Int))
  | '-' :: rest => (pyNat? rest).map (fun n => -(n : Int))
  | l => (pyNat? l).map (fun n => (n : Int))

/-- Outcome of os.kill(pid, 0) on the recorded PID: delivered, no such
process (ProcessLookupError), or not signalable by the caller
(PermissionError). -/
inductive KillProbe
  | ok
  | noSuchProcess
  | permissionDenied
  deriving DecidableEq, Repr

/-- get_running_pid (single_instance.py lines 16-35) for one scope.  The
lock file is modelled by its optional text content and the process table
by a probe oracle; the result pairs the returned PID with the lock-file
content left on disk (none when the function unlinked it or it was
absent). -/
def getRunningPid (lockContent : Option String) (probe : Int → KillProbe) :
    Option Int × Option String :=
  match lockContent with
  | none => (none, none)
  | some txt =>
    match pyInt? (pyStrip txt) with
    | none => (none, none)
    | some pid =>
      match probe pid with
      | KillProbe.ok => (some pid, some txt)
      | KillProbe.noSuchProcess => (none, none)
      | KillProbe.permissionDenied => (none, none)

/-- Session type enum from environment.py. -/
inductive SessionType
  | x11
  | wayland
  | unknown
  deriving DecidableEq, Repr

/-- Ambient system environment consulted by EnvironmentDetector and the
injection backends: executable lookups on PATH and in the interpreter's
bin directory, the dbus portal probe, the ydotoold daemon probe, and the
session environment variables. -/
structure SysEnv where
  whichPath : String → Option String
  venvPath : String → Option String
  dbusPortal : Bool
  pgrepYdotoold : Bool
  xdgSessionType : String
  waylandDisplay : Bool
  display : Bool

/-- EnvironmentDetector.get_executable_path (environment.py lines
33-59): PATH lookup, then the interpreter bin directory. -/
def getExecutablePath (e : SysEnv) (name : String) : Option String :=
  match e.whichPath name with
  | some p => some p
  | none => e.venvPath name

/-- EnvironmentDetector.get_session_type (environment.py lines 62-84). -/
def getSessionType (e : SysEnv) : SessionType :=
  let st := pyLower e.xdgSessionType
  if st = "wayland" then SessionType.wayland
  else if st = "x11" then SessionType.x11
  else if e.waylandDisplay then SessionType.wayland
  else if e.display then SessionType.x11
  else SessionType.unknown

/-- EnvironmentDetector.has_portal_support (environment.py lines
119-136): the dbus session-bus portal object probe. -/
def hasPortalSupport (e : SysEnv) : Bool := e.dbusPortal

/-- EnvironmentDetector.has_xdotool. -/
def hasXdotool (e : SysEnv) : Bool := (getExecutablePath e "xdotool").isSome

/-- EnvironmentDetector.has_ydotool. -/
def hasYdotool (e : SysEnv) : Bool := (getExecutablePath e "ydotool").isSome

/-- EnvironmentDetector.get_recommended_backend (environment.py lines
153-183), with the early returns flattened into a conditional chain. -/
def getRecommendedBackend (e : SysEnv) : String :=
  let session := getSessionType e
  if session = SessionType.wayland && hasPortalSupport e then "portal"
  else if session = SessionType.wayland && hasYdotool e then "ydotool"
  else if session = SessionType.x11 && hasXdotool e then "xdotool"
  else if hasPortalSupport e then "portal"
  else if hasXdotool e then "xdotool"
  else if hasYdotool e then "ydotool"
  else "none"

/-- The three injection backend kinds of text_injector.py. -/
inductive InjectionBackend
  | xdotool
  | portal
  | ydotool
  deriving DecidableEq, Repr

/-- is_available of each backend: XdotoolBackend checks shutil.which
(xdotool_backend.py lines 18-34), PortalBackend probes the dbus portal
object (portal_backend.py lines 31-50), YdotoolBackend needs the
executable and a running ydotoold daemon (ydotool_backend.py lines
28-58). -/
def backendIsAvailable (e : SysEnv) : InjectionBackend → Bool
  | InjectionBackend.xdotool => (e.whichPath "xdotool").isSome
  | InjectionBackend.portal => e.dbusPortal
  | InjectionBackend.ydotool => (getExecutablePath e "ydotool").isSome && e.pgrepYdotoold

/-- Errors TextInjector.create can raise: ValueError for an unknown
forced name, RuntimeError for a known-but-unavailable forced backend,
RuntimeError when nothing is available. -/
inductive CreateError
  | unknownBackend (name : String)
  | backendNotAvailable (name : String)
  | noBackendAvailable
  deriving DecidableEq, Repr

/-- Python exception class of each CreateError. -/
inductive PyErrorClass
  | valueError
  | runtimeError
  deriving DecidableEq, Repr

/-- Which Python exception class each selection fault raises
(text_injector.py lines 82-83 and 108-111). -/
def createErrorClass : CreateError → PyErrorClass
  | CreateError.unknownBackend _ => PyErrorClass.valueError
  | CreateError.backendNotAvailable _ => PyErrorClass.runtimeError
  | CreateError.noBackendAvailable => PyErrorClass.runtimeError

/-- The backends dict of TextInjector.create (text_injector.py lines
72-76). -/
def knownBackend? : String → Option InjectionBackend
  | "xdotool" => some InjectionBackend.xdotool
  | "portal" => some InjectionBackend.portal
  | "ydotool" => some InjectionBackend.ydotool
  | _ => none

/-- Canonical name of each backend kind. -/
def backendName : InjectionBackend → String
  | InjectionBackend.xdotool => "xdotool"
  | InjectionBackend.portal => "portal"
  | InjectionBackend.ydotool => "ydotool"

/-- Priority ordering derived from the recommendation (text_injector.py
lines 88-96). -/
def priorityFor (recommended : String) : List InjectionBackend :=
  if recommended = "portal" then
    [InjectionBackend.portal, InjectionBackend.xdotool, InjectionBackend.ydotool]
  else if recommended = "xdotool" then
    [InjectionBackend.xdotool, InjectionBackend.portal, InjectionBackend.ydotool]
  else if recommended = "ydotool" then
    [InjectionBackend.ydotool, InjectionBackend.portal, InjectionBackend.xdotool]
  else
    [InjectionBackend.xdotool, InjectionBackend.portal, InjectionBackend.ydotool]

/-- The probing loop of TextInjector.create (text_injector.py lines
98-111): instantiate each backend in order, bind the first available
one, error when the list is exhausted.  The second component records the
backends instantiated, in order. -/
def firstAvailable (e : SysEnv) : List InjectionBackend →
    Except CreateError InjectionBackend × List InjectionBackend
  | [] => (Except.error CreateError.noBackendAvailable, [])
  | b :: rest =>
    if backendIsAvailable e b then (Except.ok b, [b])
    else
      let r := firstAvailable e rest
      (r.1, b :: r.2)

/-- The automatic-selection path of TextInjector.create. -/
def createAuto (e : SysEnv) : Except CreateError InjectionBackend × List InjectionBackend :=
  firstAvailable e (priorityFor (getRecommendedBackend e))

/-- TextInjector.create (text_injector.py lines 52-111).  A forced name
(Python truthiness: a non-empty string) selects only that backend:
unknown names raise ValueError, known-but-unavailable ones RuntimeError;
otherwise the environment-driven probing loop runs. -/
def TextInjector.create (e : SysEnv) (forceBackend : Option String) :
    Except CreateError InjectionBackend × List InjectionBackend :=
  match forceBackend with
  | some name =>
    if name = "" then createAuto e
    else
      match knownBackend? name with
      | some b =>
        if backendIsAvailable e b then (Except.ok b, [b])
        else (Except.error (CreateError.backendNotAvailable name), [b])
      | none => (Except.error (CreateError.unknownBackend name), [])
  | none => createAuto e

/-- Update of the process-wide cls._instance cache: create assigns it
just before returning a backend and leaves it alone on every error
path. -/
def cacheAfter (oldInstance : Option InjectionBackend)
    (result : Except CreateError InjectionBackend) : Option InjectionBackend :=
  match result with
  | Except.ok b => some b
  | Except.error _ => oldInstance

/-- Result of one subprocess.run call: the process exited with a code
and produced this stdout, or the call raised (timeout or OSError). -/
inductive RunOutcome
  | exits (code : Int) (stdout : String)
  | raised
  deriving DecidableEq, Repr

/-- XdotoolBackend.inject_text (xdotool_backend.py lines 36-72).  The
backend state is the cached shutil.which result; run is the subprocess
oracle; the second component lists the commands actually run. -/
def xdotoolInjectText (xdotoolPath : Option String) (run : List String → RunOutcome)
    (text : String) : Bool × List (List String) :=
  match xdotoolPath with
  | none => (false, [])
  | some p =>
    if text = "" then (true, [])
    else
      let cmd := [p, "type", "--clearmodifiers", "--delay", "12", "--", text]
      match run cmd with
      | RunOutcome.exits code _ => (code = 0, [cmd])
      | RunOutcome.raised => (false, [cmd])

/-- Observable actions of PortalBackend.inject_text. -/
inductive PortalEffect
  | ran (cmd : List String)
  | slept (ms : Nat)
  | scheduledRestore (content : String)
  deriving DecidableEq, Repr

/-- PortalBackend._backup_clipboard (portal_backend.py lines 52-85):
wl-paste, falling back to xclip; returns the captured content when one
of them exits zero. -/
def portalBackupClipboard (run : List String → RunOutcome) :
    Option String × List PortalEffect :=
  let c1 := ["wl-paste", "--no-newline"]
  match run c1 with
  | RunOutcome.exits 0 out => (some out, [PortalEffect.ran c1])
  | _ =>
    let c2 := ["xclip", "-selection", "clipboard", "-o"]
    match run c2 with
    | RunOutcome.exits 0 out => (some out, [PortalEffect.ran c1, PortalEffect.ran c2])
    | _ => (none, [PortalEffect.ran c1, PortalEffect.ran c2])

/-- PortalBackend._set_clipboard (portal_backend.py lines 117-150):
wl-copy, falling back to xclip. -/
def portalSetClipboard (run : List String → RunOutcome) :
    Bool × List PortalEffect :=
  let c1 := ["wl-copy", "--"]
  match run c1 with
  | RunOutcome.exits 0 _ => (true, [PortalEffect.ran c1])
  | _ =>
    let c2 := ["xclip", "-selection", "clipboard"]
    match run c2 with
    | RunOutcome.exits code _ => (code = 0, [PortalEffect.ran c1, PortalEffect.ran c2])
    | RunOutcome.raised => (false, [PortalEffect.ran c1, PortalEffect.ran c2])

/-- PortalBackend._simulate_paste (portal_backend.py lines 152-192):
ydotool, then wtype, then xdotool, stopping at the first success. -/
def portalSimulatePaste (run : List String → RunOutcome) :
    Bool × List PortalEffect :=
  let c1 := ["ydotool", "key", "29:1", "47:1", "47:0", "29:0"]
  match run c1 with
  | RunOutcome.exits 0 _ => (true, [PortalEffect.ran c1])
  | _ =>
    let c2 := ["wtype", "-M", "ctrl", "-k", "v", "-m", "ctrl"]
    match run c2 with
    | RunOutcome.exits 0 _ => (true, [PortalEffect.ran c1, PortalEffect.ran c2])
    | _ =>
      let c3 := ["xdotool", "key", "--clearmodifiers", "ctrl+v"]
      match run c3 with
      | RunOutcome.exits code _ =>
        (code = 0, [PortalEffect.ran c1, PortalEffect.ran c2, PortalEffect.ran c3])
      | RunOutcome.raised =>
        (false, [PortalEffect.ran c1, PortalEffect.ran c2, PortalEffect.ran c3])

/-- Restore scheduling of the finally block (portal_backend.py lines
227-235): a detached delayed restore thread is started only when the
backup is a non-empty string. -/
def portalScheduleRestore (backup : Option String) : List PortalEffect :=
  match backup with
  | some c => if c = "" then [] else [PortalEffect.scheduledRestore c]
  | none => []

/-- PortalBackend.inject_text (portal_backend.py lines 194-235): trivial
success on empty text, else backup, set clipboard, settle, simulated
paste, and a fire-and-forget restore of the backup. -/
def portalInjectText (run : List String → RunOutcome) (text : String) :
    Bool × List PortalEffect :=
  if text = "" then (true, [])
  else
    let backup := portalBackupClipboard run
    let setRes := portalSetClipboard run
    if ¬ setRes.1 then (false, backup.2 ++ setRes.2 ++ portalScheduleRestore backup.1)
    else
      let paste := portalSimulatePaste run
      (paste.1, backup.2 ++ setRes.2 ++ [PortalEffect.slept 50] ++ paste.2 ++
        [PortalEffect.slept 100] ++ portalScheduleRestore backup.1)

/-- A WhisperEngine immediately after one successful start. -/
def whisperRecordingExample : WhisperEngine := whisperStep whisperInit (WhisperEvent.start true true)

/-- A FasterWhisperEngine immediately after one successful start. -/
def fwRecordingExample : FasterWhisperEngine := fwStep fwInit (FwEvent.start true true)

/-- A ParakeetEngine immediately after one successful start. -/
def parakeetRecordingExample : ParakeetEngine := parakeetStep parakeetInit (ParakeetEvent.start true true)

/-- The state setter always stores the assigned value. -/
theorem setStateNotify_fst (cur new : DictationState) : (setStateNotify cur new).1 = new := by
  unfold setStateNotify
  split_ifs with h
  · rfl
  · exact not_not.mp h

/-- Reachability invariant of the WhisperEngine: the _recording flag is
set exactly while the state machine is in Recording. -/
theorem whisperReachable_inv {e : WhisperEngine} (h : WhisperReachable e) :
    e.recording = true ↔ e.state = DictationState.recording := by
  induction h with
  | init => simp [whisperInit]
  | step h ev ih =>
    cases ev with
    | start a l =>
      simp only [whisperStep, WhisperEngine.start]
      split_ifs <;> simp_all [setStateNotify_fst]
    | stop segs inj =>
      simp only [whisperStep, WhisperEngine.stop]
      split_ifs <;> simp_all [setStateNotify_fst]
    | threadFail =>
      simp only [whisperStep]
      split_ifs <;> simp_all [setStateNotify_fst]
    | threadBegin =>
      simp only [whisperStep]
      split_ifs <;> simp_all
    | capture f =>
      simp only [whisperStep]
      split_ifs <;> simp_all

/-- Reachability invariant of the FasterWhisperEngine. -/
theorem fwReachable_inv {e : FasterWhisperEngine} (h : FwReachable e) :
    e.recording = true ↔ e.state = DictationState.recording := by
  induction h with
  | init => simp [fwInit]
  | step h ev ih =>
    cases ev with
    | start a l =>
      simp only [fwStep, FasterWhisperEngine.start]
      split_ifs <;> simp_all [setStateNotify_fst]
    | stop segs inj =>
      simp only [fwStep, FasterWhisperEngine.stop]
      split_ifs <;> simp_all [setStateNotify_fst]
    | threadFail =>
      simp only [fwStep]
      split_ifs <;> simp_all [setStateNotify_fst]
    | capture f =>
      simp only [fwStep]
      split_ifs <;> simp_all

/-- Reachability invariant of the ParakeetEngine. -/
theorem parakeetReachable_inv {e : ParakeetEngine} (h : ParakeetReachable e) :
    e.recording = true ↔ e.state = DictationState.recording := by
  induction h with
  | init => simp [parakeetInit]
  | step h ev ih =>
    cases ev with
    | start a l =>
      simp only [parakeetStep, ParakeetEngine.start]
      split_ifs <;> simp_all [setStateNotify_fst]
    | stop segs inj =>
      simp only [parakeetStep, ParakeetEngine.stop]
      split_ifs <;> simp_all [setStateNotify_fst]
    | threadFail =>
      simp only [parakeetStep]
      split_ifs <;> simp_all [setStateNotify_fst]
    | capture f =>
      simp only [parakeetStep]
      split_ifs <;> simp_all

/-- The whisper example state is reachable. -/
theorem whisperRecordingExample_reachable : WhisperReachable whisperRecordingExample :=
  WhisperReachable.step WhisperReachable.init (WhisperEvent.start true true)

/-- The faster-whisper example state is reachable. -/
theorem fwRecordingExample_reachable : FwReachable fwRecordingExample :=
  FwReachable.step FwReachable.init (FwEvent.start true true)

/-- The parakeet example state is reachable. -/
theorem parakeetRecordingExample_reachable : ParakeetReachable parakeetRecordingExample :=
  ParakeetReachable.step ParakeetReachable.init (ParakeetEvent.start true true)

/-- C1: for each speech engine (VoskEngine, WhisperEngine,
FasterWhisperEngine, ParakeetEngine) and the legacy DictationManager,
calling start while the engine is Recording returns false, leaves the
whole engine state unchanged (still Recording) and performs no side
effects, whatever the environment oracles say. -/
theorem start_rejected_while_recording :
    (∀ (e : VoskEngine), e.state = DictationState.recording →
      ∀ execFound spawnOk, VoskEngine.start execFound spawnOk e = (false, e, [])) ∧
    (∀ (e : DictationManager), e.state = DictationState.recording →
      ∀ execFound spawnOk, DictationManager.start execFound spawnOk e = (false, e, [])) ∧
    (∀ (e : WhisperEngine), WhisperReachable e → e.state = DictationState.recording →
      ∀ avail loadOk, WhisperEngine.start avail loadOk e = (false, e, [])) ∧
    (∀ (e : FasterWhisperEngine), FwReachable e → e.state = DictationState.recording →
      ∀ avail loadOk, FasterWhisperEngine.start avail loadOk e = (false, e, [])) ∧
    (∀ (e : ParakeetEngine), ParakeetReachable e → e.state = DictationState.recording →
      ∀ avail loadOk, ParakeetEngine.start avail loadOk e = (false, e, [])) := by
  refine ⟨?_, ?_, ?_, ?_, ?_⟩
  · intro e h execFound spawnOk
    simp [VoskEngine.start, h]
  · intro e h execFound spawnOk
    simp [DictationManager.start, h]
  · intro e hr h avail loadOk
    have hrec : e.recording = true := (whisperReachable_inv hr).mpr h
    simp [WhisperEngine.start, hrec]
  · intro e hr h avail loadOk
    have hrec : e.recording = true := (fwReachable_inv hr).mpr h
    simp [FasterWhisperEngine.start, hrec]
  · intro e hr h avail loadOk
    have hrec : e.recording = true := (parakeetReachable_inv hr).mpr h
    simp [ParakeetEngine.start, hrec]

/-- Witness for C1 at concrete Recording engine states. -/
theorem start_rejected_while_recording_witness :
    (VoskEngine.mk DictationState.recording true).state = DictationState.recording ∧
    VoskEngine.start true true (VoskEngine.mk DictationState.recording true) =
      (false, VoskEngine.mk DictationState.recording true, []) ∧
    (DictationManager.mk DictationState.recording true).state = DictationState.recording ∧
    DictationManager.start false false (DictationManager.mk DictationState.recording true) =
      (false, DictationManager.mk DictationState.recording true, []) ∧
    WhisperReachable whisperRecordingExample ∧
    whisperRecordingExample.state = DictationState.recording ∧
    WhisperEngine.start true true whisperRecordingExample =
      (false, whisperRecordingExample, []) ∧
    FwReachable fwRecordingExample ∧
    fwRecordingExample.state = DictationState.recording ∧
    FasterWhisperEngine.start false true fwRecordingExample =
      (false, fwRecordingExample, []) ∧
    ParakeetReachable parakeetRecordingExample ∧
    parakeetRecordingExample.state = DictationState.recording ∧
    ParakeetEngine.start true false parakeetRecordingExample =
      (false, parakeetRecordingExample, []) :=
  ⟨rfl,
   start_rejected_while_recording.1 _ rfl true true,
   rfl,
   start_rejected_while_recording.2.1 _ rfl false false,
   whisperRecordingExample_reachable,
   by decide,
   start_rejected_while_recording.2.2.1 _ whisperRecordingExample_reachable (by decide) true true,
   fwRecordingExample_reachable,
   by decide,
   start_rejected_while_recording.2.2.2.1 _ fwRecordingExample_reachable (by decide) false true,
   parakeetRecordingExample_reachable,
   by decide,
   start_rejected_while_recording.2.2.2.2 _ parakeetRecordingExample_reachable (by decide) true false⟩

/-- C2: for each speech engine (and the legacy DictationManager),
calling stop while the engine is not Recording (Idle, Processing or
Error) returns the empty string, leaves the whole engine state
unchanged and performs no side effects. -/
theorem stop_noop_when_not_recording :
    (∀ (e : VoskEngine), e.state ≠ DictationState.recording →
      VoskEngine.stop e = ("", e, [])) ∧
    (∀ (e : DictationManager), e.state ≠ DictationState.recording →
      DictationManager.stop e = ("", e, [])) ∧
    (∀ (e : WhisperEngine), WhisperReachable e → e.state ≠ DictationState.recording →
      ∀ segs injAvail, WhisperEngine.stop e segs injAvail = ("", e, [])) ∧
    (∀ (e : FasterWhisperEngine), FwReachable e → e.state ≠ DictationState.recording →
      ∀ segs injAvail, FasterWhisperEngine.stop e segs injAvail = ("", e, [])) ∧
    (∀ (e : ParakeetEngine), ParakeetReachable e → e.state ≠ DictationState.recording →
      ∀ segs injAvail, ParakeetEngine.stop e segs injAvail = ("", e, [])) := by
  refine ⟨?_, ?_, ?_, ?_, ?_⟩
  · intro e h
    simp [VoskEngine.stop, h]
  · intro e h
    simp [DictationManager.stop, h]
  · intro e hr h segs injAvail
    have hrec : e.recording = false := by
      rcases Bool.eq_false_or_eq_true e.recording with hb | hb
      · exact absurd ((whisperReachable_inv hr).mp hb) h
      · exact hb
    simp [WhisperEngine.stop, hrec]
  · intro e hr h segs injAvail
    have hrec : e.recording = false := by
      rcases Bool.eq_false_or_eq_true e.recording with hb | hb
      · exact absurd ((fwReachable_inv hr).mp hb) h
      · exact hb
    simp [FasterWhisperEngine.stop, hrec]
  · intro e hr h segs injAvail
    have hrec : e.recording = false := by
      rcases Bool.eq_false_or_eq_true e.recording with hb | hb
      · exact absurd ((parakeetReachable_inv hr).mp hb) h
      · exact hb
    simp [ParakeetEngine.stop, hrec]

/-- Witness for C2 at concrete non-Recording engine states. -/
theorem stop_noop_when_not_recording_witness :
    (VoskEngine.mk DictationState.idle false).state ≠ DictationState.recording ∧
    VoskEngine.stop (VoskEngine.mk DictationState.idle false) =
      ("", VoskEngine.mk DictationState.idle false, []) ∧
    (DictationManager.mk DictationState.error false).state ≠ DictationState.recording ∧
    DictationManager.stop (DictationManager.mk DictationState.error false) =
      ("", DictationManager.mk DictationState.error false, []) ∧
    WhisperReachable whisperInit ∧
    whisperInit.state ≠ DictationState.recording ∧
    WhisperEngine.stop whisperInit (some ["hello"]) true = ("", whisperInit, []) ∧
    FwReachable fwInit ∧
    fwInit.state ≠ DictationState.recording ∧
    FasterWhisperEngine.stop fwInit none false = ("", fwInit, []) ∧
    ParakeetReachable parakeetInit ∧
    parakeetInit.state ≠ DictationState.recording ∧
    ParakeetEngine.stop parakeetInit (some []) true = ("", parakeetInit, []) :=
  ⟨by decide,
   stop_noop_when_not_recording.1 _ (by decide),
   by decide,
   stop_noop_when_not_recording.2.1 _ (by decide),
   WhisperReachable.init,
   by decide,
   stop_noop_when_not_recording.2.2.1 _ WhisperReachable.init (by decide) (some ["hello"]) true,
   FwReachable.init,
   by decide,
   stop_noop_when_not_recording.2.2.2.1 _ FwReachable.init (by decide) none false,
   ParakeetReachable.init,
   by decide,
   stop_noop_when_not_recording.2.2.2.2 _ ParakeetReachable.init (by decide) (some []) true⟩

/-- C3: the state setter of SpeechEngine and DictationManager is
edge-triggered: over any sequence of assignments, the callback trace is
exactly the subsequence of assignments that change the stored value;
assigning the current value again never notifies, and assigning a
different value notifies exactly once with that value. -/
theorem state_setter_edge_triggered :
    (∀ (cur : DictationState) (assignments : List DictationState),
      (runAssignments cur assignments).2 = changedAssignments cur assignments) ∧
    (∀ cur : DictationState, setStateNotify cur cur = (cur, [])) ∧
    (∀ cur a : DictationState, a ≠ cur → setStateNotify cur a = (a, [a])) := by
  refine ⟨?_, ?_, ?_⟩
  · intro cur assignments
    induction assignments generalizing cur with
    | nil => rfl
    | cons a rest ih =>
      by_cases h : a = cur
      · subst h
        simp [runAssignments, changedAssignments, setStateNotify, ih]
      · simp [runAssignments, changedAssignments, setStateNotify, h, Ne.symm h, ih]
  · intro cur
    simp [setStateNotify]
  · intro cur a h
    simp [setStateNotify, Ne.symm h]

/-- Witness for C3: a same-state assignment notifies zero times and a
changing assignment notifies exactly once. -/
theorem state_setter_edge_triggered_witness :
    (runAssignments DictationState.idle
      [DictationState.idle, DictationState.recording, DictationState.recording,
        DictationState.idle]).2 =
      changedAssignments DictationState.idle
        [DictationState.idle, DictationState.recording, DictationState.recording,
          DictationState.idle] ∧
    setStateNotify DictationState.idle DictationState.idle = (DictationState.idle, []) ∧
    DictationState.recording ≠ DictationState.idle ∧
    setStateNotify DictationState.idle DictationState.recording =
      (DictationState.recording, [DictationState.recording]) :=
  ⟨state_setter_edge_triggered.1 _ _,
   state_setter_edge_triggered.2.1 _,
   by decide,
   state_setter_edge_triggered.2.2 _ _ (by decide)⟩

/-- C4: every engine's stop returns the empty string on every path,
whatever the engine state, recorded audio and transcription output, so
two stop runs differing only in audio and model output return the same
value and the transcribed text is not observable through the result. -/
theorem stop_returns_empty_always :
    (∀ e : VoskEngine, (VoskEngine.stop e).1 = "") ∧
    (∀ (e : WhisperEngine) segs injAvail, (WhisperEngine.stop e segs injAvail).1 = "") ∧
    (∀ (e : FasterWhisperEngine) segs injAvail,
      (FasterWhisperEngine.stop e segs injAvail).1 = "") ∧
    (∀ (e : ParakeetEngine) segs injAvail, (ParakeetEngine.stop e segs injAvail).1 = "") ∧
    (∀ (e1 e2 : VoskEngine), (VoskEngine.stop e1).1 = (VoskEngine.stop e2).1) ∧
    (∀ (e1 e2 : WhisperEngine) s1 s2 i1 i2,
      (WhisperEngine.stop e1 s1 i1).1 = (WhisperEngine.stop e2 s2 i2).1) ∧
    (∀ (e1 e2 : FasterWhisperEngine) s1 s2 i1 i2,
      (FasterWhisperEngine.stop e1 s1 i1).1 = (FasterWhisperEngine.stop e2 s2 i2).1) ∧
    (∀ (e1 e2 : ParakeetEngine) s1 s2 i1 i2,
      (ParakeetEngine.stop e1 s1 i1).1 = (ParakeetEngine.stop e2 s2 i2).1) := by
  have hv : ∀ e : VoskEngine, (VoskEngine.stop e).1 = "" := by
    intro e
    unfold VoskEngine.stop
    split <;> rfl
  have hw : ∀ (e : WhisperEngine) segs injAvail, (WhisperEngine.stop e segs injAvail).1 = "" := by
    intro e segs injAvail
    unfold WhisperEngine.stop
    split <;> rfl
  have hf : ∀ (e : FasterWhisperEngine) segs injAvail,
      (FasterWhisperEngine.stop e segs injAvail).1 = "" := by
    intro e segs injAvail
    unfold FasterWhisperEngine.stop
    split <;> rfl
  have hp : ∀ (e : ParakeetEngine) segs injAvail,
      (ParakeetEngine.stop e segs injAvail).1 = "" := by
    intro e segs injAvail
    unfold ParakeetEngine.stop
    split <;> rfl
  exact ⟨hv, hw, hf, hp,
    fun e1 e2 => (hv e1).trans (hv e2).symm,
    fun e1 e2 s1 s2 i1 i2 => (hw e1 s1 i1).trans (hw e2 s2 i2).symm,
    fun e1 e2 s1 s2 i1 i2 => (hf e1 s1 i1).trans (hf e2 s2 i2).symm,
    fun e1 e2 s1 s2 i1 i2 => (hp e1 s1 i1).trans (hp e2 s2 i2).symm⟩


/-- C5 counterexample: the non-speech filter applied to the example
input does not give the single-spaced string claimed: the literal and
regex removals leave both surrounding spaces in place and only the edges
are stripped. -/
theorem filterNonSpeech_example_counterexample :
    filterNonSpeech "[Musique] Bonjour (Applaudissements) le monde..." ≠
      "Bonjour le monde" := by decide

/-- C5 amended: the non-speech filter applied to the example input
returns exactly "Bonjour  le monde", with two spaces between "Bonjour"
and "le" where the parenthesised marker was removed. -/
theorem filterNonSpeech_example :
    filterNonSpeech "[Musique] Bonjour (Applaudissements) le monde..." =
      "Bonjour  le monde" := by decide

/-- C6: TextInjector.create with a forced backend name fails at
selection time with distinguishable errors: an unknown name gives the
ValueError-classed unknownBackend error without instantiating anything,
a known-but-unavailable backend gives the RuntimeError-classed
backendNotAvailable error, the two error kinds differ, and a known
available backend is the only one instantiated and is returned. -/
theorem create_forced_backend :
    (∀ (e : SysEnv) (name : String), name ≠ "" → knownBackend? name = none →
      TextInjector.create e (some name) =
        (Except.error (CreateError.unknownBackend name), [])) ∧
    (∀ (e : SysEnv) (b : InjectionBackend), backendIsAvailable e b = false →
      TextInjector.create e (some (backendName b)) =
        (Except.error (CreateError.backendNotAvailable (backendName b)), [b])) ∧
    (∀ n m : String, createErrorClass (CreateError.unknownBackend n) ≠
      createErrorClass (CreateError.backendNotAvailable m)) ∧
    (∀ (e : SysEnv) (b : InjectionBackend), backendIsAvailable e b = true →
      TextInjector.create e (some (backendName b)) = (Except.ok b, [b])) := by
  refine ⟨?_, ?_, ?_, ?_⟩
  · intro e name h1 h2
    simp [TextInjector.create, h1, h2]
  · intro e b h
    cases b <;> simp_all [TextInjector.create, knownBackend?, backendName]
  · intro n m
    simp [createErrorClass]
  · intro e b h
    cases b <;> simp_all [TextInjector.create, knownBackend?, backendName]

/-- An environment with no injection tool at all. -/
def envBare : SysEnv :=
  { whichPath := fun _ => none
    venvPath := fun _ => none
    dbusPortal := false
    pgrepYdotoold := false
    xdgSessionType := ""
    waylandDisplay := false
    display := false }

/-- An X11 environment where only xdotool is installed. -/
def envX11 : SysEnv :=
  { whichPath := fun n => if n = "xdotool" then some "/usr/bin/xdotool" else none
    venvPath := fun _ => none
    dbusPortal := false
    pgrepYdotoold := false
    xdgSessionType := "x11"
    waylandDisplay := false
    display := true }

/-- A Wayland session where the desktop portal answers on the session
bus and xdotool is also installed. -/
def envWayland : SysEnv :=
  { whichPath := fun n => if n = "xdotool" then some "/usr/bin/xdotool" else none
    venvPath := fun _ => none
    dbusPortal := true
    pgrepYdotoold := false
    xdgSessionType := "wayland"
    waylandDisplay := true
    display := false }

/-- Witness for C6 at concrete environments and names. -/
theorem create_forced_backend_witness :
    ("wtype" ≠ "" ∧ knownBackend? "wtype" = none ∧
      TextInjector.create envX11 (some "wtype") =
        (Except.error (CreateError.unknownBackend "wtype"), [])) ∧
    (backendIsAvailable envBare InjectionBackend.xdotool = false ∧
      TextInjector.create envBare (some (backendName InjectionBackend.xdotool)) =
        (Except.error (CreateError.backendNotAvailable
          (backendName InjectionBackend.xdotool)), [InjectionBackend.xdotool])) ∧
    createErrorClass (CreateError.unknownBackend "wtype") ≠
      createErrorClass (CreateError.backendNotAvailable "xdotool") ∧
    (backendIsAvailable envX11 InjectionBackend.xdotool = true ∧
      TextInjector.create envX11 (some (backendName InjectionBackend.xdotool)) =
        (Except.ok InjectionBackend.xdotool, [InjectionBackend.xdotool])) :=
  ⟨⟨by decide, rfl, create_forced_backend.1 envX11 "wtype" (by decide) rfl⟩,
   ⟨rfl, create_forced_backend.2.1 envBare InjectionBackend.xdotool rfl⟩,
   create_forced_backend.2.2.1 "wtype" "xdotool",
   ⟨rfl, create_forced_backend.2.2.2 envX11 InjectionBackend.xdotool rfl⟩⟩

/-- C7: automatic backend selection: the "portal" recommendation yields
the probe order portal, xdotool, ydotool; a Wayland session with portal
support is recommended "portal" and create then selects the portal
backend; the probing loop binds the first available backend of the
priority list and instantiates exactly the backends up to it; when no
backend is available create fails with the noBackendAvailable
RuntimeError; and a successful selection is stored in the process-wide
cache. -/
theorem create_auto_selection :
    priorityFor "portal" =
      [InjectionBackend.portal, InjectionBackend.xdotool, InjectionBackend.ydotool] ∧
    (∀ e : SysEnv, getSessionType e = SessionType.wayland → e.dbusPortal = true →
      getRecommendedBackend e = "portal") ∧
    (∀ e : SysEnv, getSessionType e = SessionType.wayland → e.dbusPortal = true →
      TextInjector.create e none = (Except.ok InjectionBackend.portal, [InjectionBackend.portal])) ∧
    (∀ (e : SysEnv) (pre : List InjectionBackend) (b : InjectionBackend)
        (post : List InjectionBackend),
      (∀ x ∈ pre, backendIsAvailable e x = false) → backendIsAvailable e b = true →
      firstAvailable e (pre ++ b :: post) = (Except.ok b, pre ++ [b])) ∧
    (∀ (e : SysEnv) (l : List InjectionBackend),
      (firstAvailable e l).1 = Except.error CreateError.noBackendAvailable ↔
        ∀ b ∈ l, backendIsAvailable e b = false) ∧
    (∀ (e : SysEnv) (old : Option InjectionBackend) (b : InjectionBackend)
        (tr : List InjectionBackend),
      TextInjector.create e none = (Except.ok b, tr) →
      cacheAfter old (TextInjector.create e none).1 = some b) := by
  refine ⟨rfl, ?_, ?_, ?_, ?_, ?_⟩
  · intro e h1 h2
    simp [getRecommendedBackend, h1, hasPortalSupport, h2]
  · intro e h1 h2
    have hrec : getRecommendedBackend e = "portal" := by
      simp [getRecommendedBackend, h1, hasPortalSupport, h2]
    simp [TextInjector.create, createAuto, hrec, priorityFor, firstAvailable,
      backendIsAvailable, h2]
  · intro e pre b post hpre hb
    induction pre with
    | nil => simp [firstAvailable, hb]
    | cons x rest ih =>
      have hx : backendIsAvailable e x = false := hpre x (by simp)
      have hrest : ∀ y ∈ rest, backendIsAvailable e y = false := by
        intro y hy
        exact hpre y (by simp [hy])
      simp [firstAvailable, hx, ih hrest]
  · intro e l
    induction l with
    | nil => simp [firstAvailable]
    | cons x rest ih =>
      by_cases hx : backendIsAvailable e x = true
      · simp [firstAvailable, hx]
      · simp only [Bool.not_eq_true] at hx
        simp [firstAvailable, hx, ih]
  · intro e old b tr h
    simp [h, cacheAfter]

/-- Witness for C7 at a concrete Wayland environment with portal
support. -/
theorem create_auto_selection_witness :
    (getSessionType envWayland = SessionType.wayland ∧ envWayland.dbusPortal = true ∧
      getRecommendedBackend envWayland = "portal") ∧
    TextInjector.create envWayland none =
      (Except.ok InjectionBackend.portal, [InjectionBackend.portal]) ∧
    ((∀ x ∈ [InjectionBackend.ydotool], backendIsAvailable envWayland x = false) ∧
      backendIsAvailable envWayland InjectionBackend.xdotool = true ∧
      firstAvailable envWayland
          ([InjectionBackend.ydotool] ++ InjectionBackend.xdotool :: [InjectionBackend.portal]) =
        (Except.ok InjectionBackend.xdotool,
          [InjectionBackend.ydotool] ++ [InjectionBackend.xdotool])) ∧
    ((firstAvailable envBare
        [InjectionBackend.xdotool, InjectionBackend.portal, InjectionBackend.ydotool]).1 =
      Except.error CreateError.noBackendAvailable) ∧
    cacheAfter none (TextInjector.create envWayland none).1 = some InjectionBackend.portal :=
  ⟨⟨by decide, rfl, create_auto_selection.2.1 envWayland (by decide) rfl⟩,
   create_auto_selection.2.2.1 envWayland (by decide) rfl,
   ⟨by decide, rfl,
    create_auto_selection.2.2.2.1 envWayland [InjectionBackend.ydotool]
      InjectionBackend.xdotool [InjectionBackend.portal] (by decide) rfl⟩,
   (create_auto_selection.2.2.2.2.1 envBare
     [InjectionBackend.xdotool, InjectionBackend.portal, InjectionBackend.ydotool]).mpr
     (by decide),
   create_auto_selection.2.2.2.2.2 envWayland none InjectionBackend.portal
     [InjectionBackend.portal]
     (create_auto_selection.2.2.1 envWayland (by decide) rfl)⟩

/-- C8: lock-file self-healing of get_running_pid: a lock file whose
content does not parse as an integer, or whose PID names no running
process, yields none and the lock file is unlinked; a PID whose probe
signal is delivered is returned and the lock file is kept. -/
theorem getRunningPid_self_healing :
    (∀ (txt : String) (probe : Int → KillProbe), pyInt? (pyStrip txt) = none →
      getRunningPid (some txt) probe = (none, none)) ∧
    (∀ (txt : String) (pid : Int) (probe : Int → KillProbe),
      pyInt? (pyStrip txt) = some pid → probe pid = KillProbe.noSuchProcess →
      getRunningPid (some txt) probe = (none, none)) ∧
    (∀ (txt : String) (pid : Int) (probe : Int → KillProbe),
      pyInt? (pyStrip txt) = some pid → probe pid = KillProbe.ok →
      getRunningPid (some txt) probe = (some pid, some txt)) := by
  refine ⟨?_, ?_, ?_⟩
  · intro txt probe h
    simp [getRunningPid, h]
  · intro txt pid probe h1 h2
    simp [getRunningPid, h1, h2]
  · intro txt pid probe h1 h2
    simp [getRunningPid, h1, h2]

/-- Witness for C8 at concrete lock-file contents and process tables. -/
theorem getRunningPid_self_healing_witness :
    (pyInt? (pyStrip "pid?") = none ∧
      getRunningPid (some "pid?") (fun _ => KillProbe.ok) = (none, none)) ∧
    (pyInt? (pyStrip " 4321 ") = some 4321 ∧
      (fun _ : Int => KillProbe.noSuchProcess) 4321 = KillProbe.noSuchProcess ∧
      getRunningPid (some " 4321 ") (fun _ => KillProbe.noSuchProcess) = (none, none)) ∧
    (pyInt? (pyStrip "4321") = some 4321 ∧
      (fun _ : Int => KillProbe.ok) 4321 = KillProbe.ok ∧
      getRunningPid (some "4321") (fun _ => KillProbe.ok) = (some 4321, some "4321")) :=
  ⟨⟨by decide, getRunningPid_self_healing.1 "pid?" (fun _ => KillProbe.ok) (by decide)⟩,
   ⟨by decide, rfl,
    getRunningPid_self_healing.2.1 " 4321 " 4321 (fun _ => KillProbe.noSuchProcess)
      (by decide) rfl⟩,
   ⟨by decide, rfl,
    getRunningPid_self_healing.2.2 "4321" 4321 (fun _ => KillProbe.ok) (by decide) rfl⟩⟩

/-- C10: get_running_pid treats a PermissionError from signalling the
recorded PID like a dead process: it unlinks the lock file and returns
none even though the process is running under another user. -/
theorem getRunningPid_permission_denied :
    ∀ (txt : String) (pid : Int) (probe : Int → KillProbe),
      pyInt? (pyStrip txt) = some pid → probe pid = KillProbe.permissionDenied →
      getRunningPid (some txt) probe = (none, none) := by
  intro txt pid probe h1 h2
  simp [getRunningPid, h1, h2]

/-- Witness for C10: a live but unsignalable PID is reported absent and
its lock record removed. -/
theorem getRunningPid_permission_denied_witness :
    pyInt? (pyStrip "777") = some 777 ∧
    (fun _ : Int => KillProbe.permissionDenied) 777 = KillProbe.permissionDenied ∧
    getRunningPid (some "777") (fun _ => KillProbe.permissionDenied) = (none, none) :=
  ⟨by decide, rfl,
   getRunningPid_permission_denied "777" 777 (fun _ => KillProbe.permissionDenied)
     (by decide) rfl⟩

/-- C9 counterexample: on the command backend with xdotool missing,
inject_text of the empty string returns false (the availability guard
runs before the empty-text guard), refuting the unconditional claim. -/
theorem injectText_empty_counterexample :
    (xdotoolInjectText none (fun _ => RunOutcome.raised) "").1 = false := rfl

/-- C9 amended: inject_text on the empty string runs no subprocess on
either backend; the clipboard-paste backend returns true
unconditionally, while the command backend returns true exactly when
xdotool is available and false when it is not. -/
theorem injectText_empty_no_subprocess :
    (∀ run : List String → RunOutcome, portalInjectText run "" = (true, [])) ∧
    (∀ (p : String) (run : List String → RunOutcome),
      xdotoolInjectText (some p) run "" = (true, [])) ∧
    (∀ (path : Option String) (run : List String → RunOutcome),
      (xdotoolInjectText path run "").2 = []) ∧
    (∀ run : List String → RunOutcome, xdotoolInjectText none run "" = (false, [])) := by
  refine ⟨fun run => rfl, fun p run => rfl, ?_, fun run => rfl⟩
  intro path run
  cases path <;> rfl
